import Mathlib

/-!
Shallow embedding of the AuthorByAI VS Code extension's core logic
(src/src/extension.ts and the unnamed companion source file):
the sequential multi-provider AI response resolution chain with its
deterministic offline fallback responders, the bounded session activity
log, the prompt template construction, and the filename sanitizer.

Modelling conventions:
* An HTTP exchange is a collaborator: its outcome is injected as an
  `HttpResult` (network error, or a status with an optionally parseable
  JSON body).  The request body the code builds is not observable in any
  claim and is not modelled.
* JavaScript exceptions become `Except String`; `throw` is `.error`.
* `Math.floor(Math.random() * pool.length)` becomes an injected natural
  number taken modulo the pool length.
* JavaScript case mapping is modelled with `Char.toLower` (ASCII range),
  and the `\s` class with the explicit `jsWs` character set.
-/

namespace AuthorByAI

/-- Minimal JSON value model, enough for the fixed extraction paths the
providers use (`choices[0].message.content`, `response`, `content[0].text`). -/
inductive Json where
  | jnull : Json
  | jbool : Bool → Json
  | jnum : Int → Json
  | jstr : String → Json
  | jarr : List Json → Json
  | jobj : List (String × Json) → Json

/-- Field access `v.k` (optional chaining yields `none` on any other shape). -/
def Json.getField : Json → String → Option Json
  | .jobj fields, key => fields.lookup key
  | _, _ => none

/-- Index access `v[i]` on arrays. -/
def Json.getIdx : Json → Nat → Option Json
  | .jarr elems, i => elems[i]?
  | _, _ => none

/-- A leaf read as a string; any non-string leaf is `none`. -/
def Json.asString : Json → Option String
  | .jstr s => some s
  | _ => none

/-- Outcome of one `fetch` call: the network rejects, or a response arrives
with its `ok` flag, its status code, and its body (`none` when
`response.json()` would throw on a non-JSON body). -/
inductive HttpResult where
  | networkError : HttpResult
  | response : Bool → Nat → Option Json → HttpResult

/-- The two credentials read from `process.env` at call time. -/
structure Env where
  openaiKey : Option String
  anthropicKey : Option String

/-- The injected HTTP outcomes, one per provider endpoint. -/
structure NetOutcomes where
  openai : HttpResult
  localAI : HttpResult
  claude : HttpResult

/-- JavaScript `if (!apiKey)`: an unset variable and the empty string are
both falsy. -/
def envKeyMissing : Option String → Bool
  | none => true
  | some s => s == ""

/-- JavaScript `x || default` on an optionally-present string field: an
absent field and the empty string are falsy and yield the default. -/
def jsOrDefault (o : Option String) (d : String) : String :=
  match o with
  | none => d
  | some s => if s == "" then d else s

/-- `data.choices?.[0]?.message?.content` -/
def extractOpenAI (j : Json) : Option String :=
  ((((j.getField "choices").bind (·.getIdx 0)).bind
    (·.getField "message")).bind (·.getField "content")).bind Json.asString

/-- `data.response` -/
def extractLocalAI (j : Json) : Option String :=
  (j.getField "response").bind Json.asString

/-- `data.content?.[0]?.text` -/
def extractClaude (j : Json) : Option String :=
  (((j.getField "content").bind (·.getIdx 0)).bind
    (·.getField "text")).bind Json.asString

/-- `_callOpenAI` (extension.ts lines 843-908): missing key throws before
any request; a network rejection or non-ok status throws; an ok status has
its JSON body's `choices[0].message.content` extracted, with the placeholder
on a missing or empty field. -/
def callOpenAI (env : Env) (http : HttpResult) (_prompt : String) :
    Except String String :=
  if envKeyMissing env.openaiKey then
    .error "OpenAI API key not configured"
  else
    match http with
    | .networkError => .error "fetch failed"
    | .response ok status body =>
      if !ok then
        .error ("OpenAI API error: " ++ toString status)
      else
        match body with
        | none => .error "response body is not JSON"
        | some j => .ok (jsOrDefault (extractOpenAI j) "No response from OpenAI")

/-- `_callLocalAI` (extension.ts lines 911-938): the unauthenticated local
endpoint; same shape without a key check, extracting `response`. -/
def callLocalAI (http : HttpResult) (_prompt : String) :
    Except String String :=
  match http with
  | .networkError => .error "fetch failed"
  | .response ok status body =>
    if !ok then
      .error ("Local AI error: " ++ toString status)
    else
      match body with
      | none => .error "response body is not JSON"
      | some j => .ok (jsOrDefault (extractLocalAI j) "No response from local AI")

/-- `_callClaudeAPI` (extension.ts lines 941-996): missing key throws before
any request; otherwise like the others, extracting `content[0].text`. -/
def callClaudeAPI (env : Env) (http : HttpResult) (_prompt : String) :
    Except String String :=
  if envKeyMissing env.anthropicKey then
    .error "Anthropic API key not configured"
  else
    match http with
    | .networkError => .error "fetch failed"
    | .response ok status body =>
      if !ok then
        .error ("Claude API error: " ++ toString status)
      else
        match body with
        | none => .error "response body is not JSON"
        | some j => .ok (jsOrDefault (extractClaude j) "No response from Claude")

/-- `_getAIResponse` (extension.ts lines 819-840): the sequential
try/catch chain, in the fixed order OpenAI, local AI, Claude; every caught
provider error is swallowed and the next provider attempted; exhaustion
throws `All AI services unavailable`. -/
def getAIResponse (env : Env) (net : NetOutcomes) (prompt : String) :
    Except String String :=
  match callOpenAI env net.openai prompt with
  | .ok s => .ok s
  | .error _ =>
    match callLocalAI net.localAI prompt with
    | .ok s => .ok s
    | .error _ =>
      match callClaudeAPI env net.claude prompt with
      | .ok s => .ok s
      | .error _ => .error "All AI services unavailable"

/-- The chain generalized over an ordered provider list (the spec's
data-driven reading of the hand-chained try/catch blocks): try each in
order, return the first success, throw on exhaustion. -/
def resolveChain (providers : List (String → Except String String))
    (prompt : String) : Except String String :=
  match providers with
  | [] => .error "All AI services unavailable"
  | p :: rest =>
    match p prompt with
    | .ok s => .ok s
    | .error _ => resolveChain rest prompt

/-- How many providers of the ordered list the sequential chain invokes:
each failing provider plus the first succeeding one. -/
def invokedCount (providers : List (String → Except String String))
    (prompt : String) : Nat :=
  match providers with
  | [] => 0
  | p :: rest =>
    match p prompt with
    | .ok _ => 1
    | .error _ => 1 + invokedCount rest prompt

/-- The fixed provider order of `_getAIResponse`. -/
def providerChain (env : Env) (net : NetOutcomes) :
    List (String → Except String String) :=
  [callOpenAI env net.openai, callLocalAI net.localAI, callClaudeAPI env net.claude]

/-- The three providers' individual outcomes on a prompt, in chain order. -/
def chainResults (env : Env) (net : NetOutcomes) (prompt : String) :
    List (Except String String) :=
  (providerChain env net).map (fun p => p prompt)

/-- JavaScript `String.prototype.toLowerCase`, char by char (ASCII case
mapping, which is all the keyword tests exercise). -/
def toLowerStr (s : String) : String := String.mk (s.data.map Char.toLower)

/-- Whether the second list is an initial segment of the first. -/
def strStartsWith : List Char → List Char → Bool
  | _, [] => true
  | [], _ :: _ => false
  | c :: cs, d :: ds => c == d && strStartsWith cs ds

/-- Whether `needle` occurs contiguously anywhere in the list. -/
def hasSubList (needle : List Char) : List Char → Bool
  | [] => needle.isEmpty
  | c :: t => strStartsWith (c :: t) needle || hasSubList needle t

/-- JavaScript `hay.includes(needle)`. -/
def strIncludes (hay needle : String) : Bool := hasSubList needle.data hay.data

/-- `pool[Math.floor(Math.random() * pool.length)]` with the randomness
source injected as a natural number reduced modulo the pool size. -/
def randPick (r : Nat) (pool : List String) : String :=
  pool.getD (r % pool.length) ""

/-- The coding-keyword response pool (extension.ts lines 127-132). -/
def codeResponses : List String :=
  ["I'd be happy to help with your code! Can you share more details about what you're working on?",
   "That sounds like a coding challenge. What programming language are you using?",
   "For debugging, I recommend checking the VS Code terminal and console for error messages. What specific issue are you facing?",
   "Code organization is important! Are you looking for help with structure, syntax, or logic?"]

/-- The VS-Code-keyword response pool (extension.ts lines 139-144). -/
def vscodeResponses : List String :=
  ["VS Code is amazing! What feature or extension are you curious about?",
   "I can help with VS Code tips! Try pressing Ctrl+Shift+P to open the command palette.",
   "Extensions make VS Code powerful. Check out the Extensions marketplace for useful tools!",
   "VS Code has great debugging capabilities. Have you tried setting breakpoints in your code?"]

/-- The question-keyword response pool (extension.ts lines 151-156). -/
def helpResponses : List String :=
  ["Great question! I'm here to help. Can you provide more context about what you need?",
   "I'd love to help you figure that out! What specifically are you trying to achieve?",
   "That's an interesting question. Let me know more details and I'll do my best to assist!",
   "Questions are wonderful for learning! What area would you like to explore?"]

/-- The greeting-keyword response pool (extension.ts lines 163-168). -/
def greetingResponses : List String :=
  ["Hello! ðŸ‘‹ I'm your coding companion. What can I help you with today?",
   "Hi there! Ready to tackle some coding challenges together?",
   "Hey! Great to see you. What programming adventure are we going on today?",
   "Good to meet you! I'm here to help with any coding questions or VS Code tips you need."]

/-- The default response pool (extension.ts lines 173-179). -/
def defaultResponses : List String :=
  ["That's interesting! Tell me more about what you're working on.",
   "I'm here to help! What specific challenge are you facing?",
   "Thanks for sharing! How can I assist you with your development work?",
   "I'd love to help you with that. Can you provide more details?",
   "Interesting! Are you looking for coding help, VS Code tips, or something else?"]

/-- `_getSmartFallbackResponse` (extension.ts lines 121-182): lower-case the
message, test the fixed keyword sets in priority order (coding, VS Code,
question, greeting), pick from the first matching pool, else the default. -/
def getSmartFallbackResponse (userMessage : String) (r : Nat) : String :=
  let lowerMessage := toLowerStr userMessage
  if strIncludes lowerMessage "code" || strIncludes lowerMessage "function" ||
      strIncludes lowerMessage "variable" || strIncludes lowerMessage "debug" then
    randPick r codeResponses
  else if strIncludes lowerMessage "vscode" || strIncludes lowerMessage "extension" ||
      strIncludes lowerMessage "editor" || strIncludes lowerMessage "workspace" then
    randPick r vscodeResponses
  else if strIncludes lowerMessage "how" || strIncludes lowerMessage "what" ||
      strIncludes lowerMessage "why" || strIncludes lowerMessage "?" then
    randPick r helpResponses
  else if strIncludes lowerMessage "hello" || strIncludes lowerMessage "hi" ||
      strIncludes lowerMessage "hey" || strIncludes lowerMessage "good" then
    randPick r greetingResponses
  else
    randPick r defaultResponses

/-- The keyword sets of `_getSmartFallbackResponse`, in source order. -/
def smartKeywords : List String :=
  ["code", "function", "variable", "debug",
   "vscode", "extension", "editor", "workspace",
   "how", "what", "why", "?",
   "hello", "hi", "hey", "good"]

/-- Fixed response for outline/structure keywords (extension.ts line 1373). -/
def outlineFallback : String :=
  "I can help you create chapter outlines! Use the quick actions above to generate structured outlines for any topic in your domain."

/-- Fixed response for lesson/content keywords (extension.ts line 1377). -/
def lessonFallback : String :=
  "Let's create engaging lesson content! The lesson generator can help you build comprehensive educational materials with examples and explanations."

/-- Fixed response for exercise/practice keywords (extension.ts line 1381). -/
def exerciseFallback : String :=
  "Practical exercises are crucial for learning! I can generate hands-on activities and practice problems tailored to your topic and domain."

/-- Fixed response for quiz/test/assessment keywords (extension.ts line 1385). -/
def quizFallback : String :=
  "Assessments help reinforce learning! Try the quiz generator to create comprehensive tests with multiple question types and answer keys."

/-- Fixed response for summary/review keywords (extension.ts line 1389). -/
def summaryFallback : String :=
  "Summaries are perfect for reinforcing key concepts! Generate structured summaries with key terms, best practices, and action items."

/-- The default pool of `_getBookWritingFallback` (extension.ts lines 1392-1398). -/
def bookDefaultResponses : List String :=
  ["I'm your book writing assistant! I can help you create chapters, lessons, exercises, quizzes, and summaries for educational content.",
   "What type of learning material would you like to create? I specialize in generating structured educational content in markdown format.",
   "I can help you write comprehensive training materials. What subject area or domain are you focusing on?",
   "Let's create some engaging educational content! Use the quick actions above or tell me what specific help you need with your book.",
   "I'm here to assist with all aspects of educational book writing. What can I help you generate today?"]

/-- `_getBookWritingFallback` (extension.ts lines 1369-1401): the offline
responder of the book-writing chat; keyword classification on the
lower-cased message, then a fixed response or a random default. -/
def getBookWritingFallback (userMessage : String) (r : Nat) : String :=
  let lowerMessage := toLowerStr userMessage
  if strIncludes lowerMessage "outline" || strIncludes lowerMessage "structure" then
    outlineFallback
  else if strIncludes lowerMessage "lesson" || strIncludes lowerMessage "content" then
    lessonFallback
  else if strIncludes lowerMessage "exercise" || strIncludes lowerMessage "practice" then
    exerciseFallback
  else if strIncludes lowerMessage "quiz" || strIncludes lowerMessage "test" ||
      strIncludes lowerMessage "assessment" then
    quizFallback
  else if strIncludes lowerMessage "summary" || strIncludes lowerMessage "review" then
    summaryFallback
  else
    randPick r bookDefaultResponses

/-- Every string `_getBookWritingFallback` can return: the five fixed
keyword responses and the default pool. -/
def bookWritingCatalog : List String :=
  [outlineFallback, lessonFallback, exerciseFallback, quizFallback,
   summaryFallback] ++ bookDefaultResponses

/-- Text of `_getBookWritingResponse` before the interpolated user message
(extension.ts lines 802-813). -/
def bwPre : String :=
  "You are a professional book writing assistant specializing in creating educational and training content. You help authors create structured learning materials including:\n\nCONTENT TYPES YOU GENERATE:\n1. CHAPTER OUTLINES - Structured learning plans with objectives, sections (Introduction, Core Concepts, Practical Applications, Best Practices, Advanced Topics, Summary), and assessments\n2. LESSON CONTENT - Comprehensive educational lessons with definitions, examples, best practices, common challenges, and next steps\n3. EXERCISES - Hands-on activities with basic understanding, practical application, and problem-solving tasks plus self-assessment\n4. QUIZZES - Complete assessments with multiple choice, true/false, short answer, and practical questions plus full answer keys\n5. SUMMARIES - Comprehensive reviews with key concepts, terminology tables, best practices checklists, action items, and reflection questions\n\nCONTEXT: The user is working on educational content creation using our Book Writing Assistant VS Code extension. They can generate markdown files for any topic in various domains (Technology, Business, Science, Health, Education, Arts, etc.).\n\nUSER QUESTION: "

/-- Text of `_getBookWritingResponse` after the interpolated user message
(extension.ts line 815). -/
def bwPost : String :=
  "\n\nPlease provide helpful, specific advice about book writing, content structure, pedagogical approaches, or how to use the content generation features effectively. If they're asking about a specific topic, help them understand how to structure it for learning."

/-- The prompt `_getBookWritingResponse` (extension.ts lines 801-817)
assembles around the raw user message. -/
def bookWritingPrompt (userMessage : String) : String :=
  bwPre ++ userMessage ++ bwPost

/-- Text of the sidebar `_getBookWritingResponse` before the interpolated
context summary (companion source lines 171-180). -/
def sidebarPre : String :=
  "You are a professional book writing assistant specializing in creating educational and training content. You help authors create structured learning materials including:\n\nCONTENT TYPES YOU GENERATE:\n1. CHAPTER OUTLINES - Structured learning plans with objectives, sections (Introduction, Core Concepts, Practical Applications, Best Practices, Advanced Topics, Summary), and assessments\n2. LESSON CONTENT - Comprehensive educational lessons with definitions, examples, best practices, common challenges, and next steps\n3. EXERCISES - Hands-on activities with basic understanding, practical application, and problem-solving tasks plus self-assessment\n4. QUIZZES - Complete assessments with multiple choice, true/false, short answer, and practical questions plus full answer keys\n5. SUMMARIES - Comprehensive reviews with key concepts, terminology tables, best practices checklists, action items, and reflection questions\n\n"

/-- Text of the sidebar `_getBookWritingResponse` after the interpolated
user message (companion source line 182). -/
def sidebarPost : String :=
  "\n\nCONTEXT AWARENESS: Use the session context above to provide relevant, informed responses. If the user is working on a specific topic/domain, reference it appropriately. If they've generated files, acknowledge their progress. Provide helpful, specific advice about book writing, content structure, pedagogical approaches, or how to use the content generation features effectively."

/-- The prompt the sidebar `_getBookWritingResponse` (companion source
lines 168-185) assembles around the context summary and the user message. -/
def sidebarBookWritingPrompt (contextSummary userMessage : String) : String :=
  sidebarPre ++ contextSummary ++ "USER QUESTION: " ++ userMessage ++ sidebarPost

/-- `_handleChatMessage` (extension.ts lines 591-620), observed as the final
assistant text posted back to the webview: the chain's response via
`_getBookWritingResponse`, or, on any error, the deterministic fallback. -/
def handleChatMessage (env : Env) (net : NetOutcomes) (userMessage : String)
    (r : Nat) : String :=
  match getAIResponse env net (bookWritingPrompt userMessage) with
  | .ok s => s
  | .error _ => getBookWritingFallback userMessage r

/-- The three action kinds the session context manager records. -/
inductive ActionKind where
  | content_generation : ActionKind
  | file_creation : ActionKind
  | chat : ActionKind

/-- One record of the session activity log. -/
structure Activity where
  timestamp : Nat
  action : ActionKind
  details : String

/-- `SessionContextManager.addToContext` (companion source lines 40-52):
push the new record at the end, then keep only the last 10 records. -/
def addToContext (recentActivities : List Activity) (a : Activity) :
    List Activity :=
  let pushed := recentActivities ++ [a]
  if pushed.length > 10 then pushed.drop (pushed.length - 10) else pushed

/-- The character class JavaScript regexes write `\s` (WhiteSpace and
LineTerminator code points). -/
def jsWs (c : Char) : Bool :=
  let n := c.toNat
  n == 9 || n == 10 || n == 11 || n == 12 || n == 13 || n == 32 ||
  n == 0xa0 || n == 0x1680 || (decide (0x2000 ≤ n) && decide (n ≤ 0x200a)) ||
  n == 0x2028 || n == 0x2029 || n == 0x202f || n == 0x205f || n == 0x3000 ||
  n == 0xfeff

/-- What `replace(/[^a-z0-9\s-]/g, '')` keeps: lowercase ASCII letters,
digits, `\s` and the hyphen. -/
def keepChar (c : Char) : Bool :=
  (decide (97 ≤ c.toNat) && decide (c.toNat ≤ 122)) ||
  (decide (48 ≤ c.toNat) && decide (c.toNat ≤ 57)) || jsWs c || c == '-'

/-- `replace(/\s+/g, '-')`: each maximal whitespace run becomes one hyphen. -/
def replaceWsRuns : List Char → List Char
  | [] => []
  | [c] => if jsWs c then ['-'] else [c]
  | c :: d :: t =>
    if jsWs c then
      if jsWs d then replaceWsRuns (d :: t) else '-' :: replaceWsRuns (d :: t)
    else c :: replaceWsRuns (d :: t)

/-- The `replace` of regex `-+` by `-`: each maximal hyphen run becomes one hyphen. -/
def collapseHyphens : List Char → List Char
  | [] => []
  | [c] => [c]
  | c :: d :: t =>
    if c == '-' && d == '-' then collapseHyphens (d :: t)
    else c :: collapseHyphens (d :: t)

/-- JavaScript `String.prototype.trim`: strip `\s` from both ends. -/
def trimEnds (l : List Char) : List Char :=
  ((l.dropWhile jsWs).reverse.dropWhile jsWs).reverse

/-- `_sanitizeFilename` (extension.ts lines 1360-1367, identically in the
companion source): lower-case, delete characters outside `[a-z0-9\s-]`,
turn whitespace runs into hyphens, collapse hyphen runs, and only then
trim the ends. -/
def sanitizeFilename (text : String) : String :=
  String.mk (trimEnds (collapseHyphens (replaceWsRuns
    ((text.data.map Char.toLower).filter keepChar))))

/-- The output alphabet `_sanitizeFilename` is claimed to stay inside:
lowercase ASCII letters, digits and the hyphen. -/
def goodChar (c : Char) : Bool :=
  (decide (97 ≤ c.toNat) && decide (c.toNat ≤ 122)) ||
  (decide (48 ≤ c.toNat) && decide (c.toNat ≤ 57)) || c == '-'

/-- No two adjacent hyphens anywhere in the list. -/
def noDoubleHyphen : List Char → Bool
  | [] => true
  | [_] => true
  | c :: d :: t => !(c == '-' && d == '-') && noDoubleHyphen (d :: t)

/-- An environment with neither credential set. -/
def envNoKeys : Env := ⟨none, none⟩

/-- An environment with both credentials set. -/
def envBothKeys : Env := ⟨some "sk-test", some "sk-ant-test"⟩

/-- A successful HTTP response whose JSON body lacks every fixed text-field
path. -/
def emptyObjBody : HttpResult := .response true 200 (some (.jobj []))

/-- Outcomes where only the local provider answers (with the text "hi"). -/
def localOkNet : NetOutcomes :=
  ⟨.networkError, .response true 200 (some (.jobj [("response", .jstr "hi")])), .networkError⟩

/-- Outcomes where every endpoint is unreachable. -/
def allDownNet : NetOutcomes := ⟨.networkError, .networkError, .networkError⟩

/-- A provider stub that returns its input prompt unchanged. -/
def echoProvider : String → Except String String := fun prompt => .ok prompt

theorem getAIResponse_eq_resolveChain (env : Env) (net : NetOutcomes)
    (prompt : String) :
    getAIResponse env net prompt = resolveChain (providerChain env net) prompt := by
  cases h1 : callOpenAI env net.openai prompt <;>
    cases h2 : callLocalAI net.localAI prompt <;>
      cases h3 : callClaudeAPI env net.claude prompt <;>
        simp [getAIResponse, resolveChain, providerChain, h1, h2, h3]

theorem resolveChain_cons_ok {p : String → Except String String}
    {ps : List (String → Except String String)} {prompt s : String}
    (h : p prompt = .ok s) : resolveChain (p :: ps) prompt = .ok s := by
  simp [resolveChain, h]

theorem resolveChain_cons_error {p : String → Except String String}
    {ps : List (String → Except String String)} {prompt e : String}
    (h : p prompt = .error e) :
    resolveChain (p :: ps) prompt = resolveChain ps prompt := by
  simp [resolveChain, h]

theorem resolveChain_first_ok (ps : List (String → Except String String))
    (prompt : String) (k : Nat) (v : String)
    (herr : ∀ i, i < k → ∃ e, (ps.map (fun p => p prompt))[i]? = some (.error e))
    (hok : (ps.map (fun p => p prompt))[k]? = some (.ok v)) :
    resolveChain ps prompt = .ok v ∧ invokedCount ps prompt = k + 1 := by
  induction ps generalizing k with
  | nil => simp at hok
  | cons p rest ih =>
    cases k with
    | zero =>
      simp at hok
      exact ⟨by simp [resolveChain, hok], by simp [invokedCount, hok]⟩
    | succ k =>
      obtain ⟨e, he⟩ := herr 0 (Nat.succ_pos k)
      simp at he
      have hrest := ih k
        (fun i hi => by simpa using herr (i + 1) (Nat.succ_lt_succ hi))
        (by simpa using hok)
      refine ⟨by simp [resolveChain, he, hrest.1], ?_⟩
      simp [invokedCount, he, hrest.2]
      omega

/-- C2: the chain tries providers in the fixed order OpenAI, local AI,
Claude; if the provider at position k is the first to complete without
error, its result is returned unchanged, exactly the first k+1 providers
are invoked (so the ones after it never run), and the earlier failures
neither prevent its attempt nor propagate to the caller. -/
theorem chain_first_success_short_circuits (env : Env) (net : NetOutcomes)
    (prompt : String) (k : Nat) (v : String)
    (herr : ∀ i, i < k → ∃ e, (chainResults env net prompt)[i]? = some (.error e))
    (hok : (chainResults env net prompt)[k]? = some (.ok v)) :
    getAIResponse env net prompt = .ok v ∧
      invokedCount (providerChain env net) prompt = k + 1 := by
  unfold chainResults at herr hok
  have h := resolveChain_first_ok (providerChain env net) prompt k v herr hok
  exact ⟨(getAIResponse_eq_resolveChain env net prompt).trans h.1, h.2⟩

/-- Witness for C2: with no credentials, OpenAI fails first and the local
provider's "hi" is returned with exactly two providers invoked. -/
theorem chain_first_success_witness :
    getAIResponse envNoKeys localOkNet "p" = .ok "hi" ∧
      invokedCount (providerChain envNoKeys localOkNet) "p" = 2 :=
  chain_first_success_short_circuits envNoKeys localOkNet "p" 1 "hi"
    (fun i hi => by
      have h0 : i = 0 := by omega
      subst h0
      exact ⟨"OpenAI API key not configured", rfl⟩)
    rfl

/-- C4: an absent OPENAI_API_KEY (resp. ANTHROPIC_API_KEY) makes that
provider fail with its fixed configuration error on every HTTP outcome
(so before any network request), and the chain behaves exactly as the
chain without that provider: the failure falls through like a transport
error and never surfaces to the caller as a startup error. -/
theorem missing_key_disables_provider (env : Env) (net : NetOutcomes)
    (prompt : String) :
    (env.openaiKey = none →
      (∀ (h : HttpResult) (p : String),
        callOpenAI env h p = .error "OpenAI API key not configured") ∧
      getAIResponse env net prompt =
        resolveChain [callLocalAI net.localAI, callClaudeAPI env net.claude] prompt) ∧
    (env.anthropicKey = none →
      (∀ (h : HttpResult) (p : String),
        callClaudeAPI env h p = .error "Anthropic API key not configured") ∧
      getAIResponse env net prompt =
        resolveChain [callOpenAI env net.openai, callLocalAI net.localAI] prompt) := by
  constructor
  · intro hkey
    have hcall : ∀ (h : HttpResult) (p : String),
        callOpenAI env h p = .error "OpenAI API key not configured" := by
      intro h p
      unfold callOpenAI
      rw [hkey]
      simp [envKeyMissing]
    refine ⟨hcall, ?_⟩
    rw [getAIResponse_eq_resolveChain]
    unfold providerChain
    exact resolveChain_cons_error (hcall net.openai prompt)
  · intro hkey
    have hcall : ∀ (h : HttpResult) (p : String),
        callClaudeAPI env h p = .error "Anthropic API key not configured" := by
      intro h p
      unfold callClaudeAPI
      rw [hkey]
      simp [envKeyMissing]
    refine ⟨hcall, ?_⟩
    rw [getAIResponse_eq_resolveChain]
    unfold providerChain
    cases ho : callOpenAI env net.openai prompt with
    | ok s => simp [resolveChain, ho]
    | error e =>
      cases hl : callLocalAI net.localAI prompt with
      | ok s => simp [resolveChain, ho, hl]
      | error e2 => simp [resolveChain, ho, hl, hcall net.claude prompt]

/-- Witness for C4: with both variables absent, both keyed providers fail
with their configuration errors on a network-error outcome. -/
theorem missing_key_disables_provider_witness :
    callOpenAI envNoKeys .networkError "p" = .error "OpenAI API key not configured" ∧
    callClaudeAPI envNoKeys .networkError "p" = .error "Anthropic API key not configured" :=
  ⟨((missing_key_disables_provider envNoKeys allDownNet "p").1 rfl).1 .networkError "p",
   ((missing_key_disables_provider envNoKeys allDownNet "p").2 rfl).1 .networkError "p"⟩

/-- C5 counterexample: a successful (ok) response whose JSON body lacks the
fixed text-field path is NOT treated as a provider failure: each provider
returns its fixed placeholder as a success, and the chain therefore does
not fall through to the next provider (the working local provider is never
consulted). -/
theorem missing_field_not_failure_cex :
    callOpenAI envBothKeys emptyObjBody "p" = .ok "No response from OpenAI" ∧
    callLocalAI emptyObjBody "p" = .ok "No response from local AI" ∧
    callClaudeAPI envBothKeys emptyObjBody "p" = .ok "No response from Claude" ∧
    getAIResponse envBothKeys
      ⟨emptyObjBody,
       .response true 200 (some (.jobj [("response", .jstr "local says hi")])),
       .networkError⟩ "p" = .ok "No response from OpenAI" :=
  ⟨rfl, rfl, rfl, rfl⟩

/-- C5 (amended): when a provider's HTTP response is successful but its
JSON body lacks the provider's fixed text-field path, the invocation is
treated as a success carrying the provider's fixed placeholder string, not
as a failure, so no fallthrough to the next provider happens. -/
theorem missing_field_yields_placeholder (env : Env) (status : Nat) (j : Json)
    (p : String) :
    (envKeyMissing env.openaiKey = false → extractOpenAI j = none →
      callOpenAI env (.response true status (some j)) p = .ok "No response from OpenAI") ∧
    (extractLocalAI j = none →
      callLocalAI (.response true status (some j)) p = .ok "No response from local AI") ∧
    (envKeyMissing env.anthropicKey = false → extractClaude j = none →
      callClaudeAPI env (.response true status (some j)) p = .ok "No response from Claude") := by
  refine ⟨fun h1 h2 => ?_, fun h2 => ?_, fun h1 h2 => ?_⟩
  · unfold callOpenAI
    simp [h1, h2, jsOrDefault]
  · unfold callLocalAI
    simp [h2, jsOrDefault]
  · unfold callClaudeAPI
    simp [h1, h2, jsOrDefault]

theorem jsOrDefault_ne_empty (o : Option String) (d : String) (hd : d ≠ "") :
    jsOrDefault o d ≠ "" := by
  cases o with
  | none => simpa [jsOrDefault] using hd
  | some t =>
    by_cases ht : t = ""
    · have hb : (t == "") = true := by simp [ht]
      simpa [jsOrDefault, hb] using hd
    · have hb : (t == "") = false := by simp [ht]
      simpa [jsOrDefault, hb] using ht

theorem callOpenAI_ok_ne_empty {env : Env} {http : HttpResult} {p s : String}
    (h : callOpenAI env http p = .ok s) : s ≠ "" := by
  unfold callOpenAI at h
  repeat' split at h
  all_goals
    first
      | exact Except.noConfusion h
      | exact Except.ok.inj h ▸ jsOrDefault_ne_empty _ _ (by decide)

theorem callLocalAI_ok_ne_empty {http : HttpResult} {p s : String}
    (h : callLocalAI http p = .ok s) : s ≠ "" := by
  unfold callLocalAI at h
  repeat' split at h
  all_goals
    first
      | exact Except.noConfusion h
      | exact Except.ok.inj h ▸ jsOrDefault_ne_empty _ _ (by decide)

theorem callClaudeAPI_ok_ne_empty {env : Env} {http : HttpResult} {p s : String}
    (h : callClaudeAPI env http p = .ok s) : s ≠ "" := by
  unfold callClaudeAPI at h
  repeat' split at h
  all_goals
    first
      | exact Except.noConfusion h
      | exact Except.ok.inj h ▸ jsOrDefault_ne_empty _ _ (by decide)

theorem getAIResponse_ok_ne_empty {env : Env} {net : NetOutcomes}
    {prompt s : String} (h : getAIResponse env net prompt = .ok s) : s ≠ "" := by
  unfold getAIResponse at h
  cases h1 : callOpenAI env net.openai prompt with
  | ok t =>
    simp only [h1] at h
    exact Except.ok.inj h ▸ callOpenAI_ok_ne_empty h1
  | error e1 =>
    simp only [h1] at h
    cases h2 : callLocalAI net.localAI prompt with
    | ok t =>
      simp only [h2] at h
      exact Except.ok.inj h ▸ callLocalAI_ok_ne_empty h2
    | error e2 =>
      simp only [h2] at h
      cases h3 : callClaudeAPI env net.claude prompt with
      | ok t =>
        simp only [h3] at h
        exact Except.ok.inj h ▸ callClaudeAPI_ok_ne_empty h3
      | error e3 => simp [h3] at h

theorem str_length_pos_of_ne {s : String} (h : s ≠ "") : 0 < s.length := by
  cases s with
  | mk data =>
    cases data with
    | nil => exact absurd rfl h
    | cons c t => simp [String.length]

theorem randPick_mem (r : Nat) (pool : List String) (h : pool ≠ []) :
    randPick r pool ∈ pool := by
  unfold randPick
  have hl : 0 < pool.length := List.length_pos.mpr h
  rw [List.getD_eq_getElem _ _ (Nat.mod_lt _ hl)]
  exact List.getElem_mem _

theorem randPick_ne_empty (r : Nat) (pool : List String) (h : pool ≠ [])
    (h2 : ∀ t ∈ pool, t ≠ "") : randPick r pool ≠ "" :=
  h2 _ (randPick_mem r pool h)

theorem getBookWritingFallback_mem (msg : String) (r : Nat) :
    getBookWritingFallback msg r ∈ bookWritingCatalog := by
  unfold getBookWritingFallback bookWritingCatalog
  dsimp only
  split_ifs <;>
    first
      | exact List.mem_append_right _
          (randPick_mem r bookDefaultResponses (by simp [bookDefaultResponses]))
      | simp

theorem bookWritingCatalog_ne_empty : ∀ t ∈ bookWritingCatalog, t ≠ "" := by
  decide

theorem getBookWritingFallback_ne_empty (msg : String) (r : Nat) :
    getBookWritingFallback msg r ≠ "" :=
  bookWritingCatalog_ne_empty _ (getBookWritingFallback_mem msg r)

theorem getSmartFallbackResponse_ne_empty (msg : String) (r : Nat) :
    getSmartFallbackResponse msg r ≠ "" := by
  unfold getSmartFallbackResponse
  dsimp only
  split_ifs <;>
    first
      | exact randPick_ne_empty r codeResponses (by simp [codeResponses]) (by decide)
      | exact randPick_ne_empty r vscodeResponses (by simp [vscodeResponses]) (by decide)
      | exact randPick_ne_empty r helpResponses (by simp [helpResponses]) (by decide)
      | exact randPick_ne_empty r greetingResponses (by simp [greetingResponses]) (by decide)
      | exact randPick_ne_empty r defaultResponses (by simp [defaultResponses]) (by decide)

/-- C1: for every input message (and every provider/network outcome and
randomness), the full resolution of `_handleChatMessage` — the provider
chain plus the catch that falls back to the offline responder — produces
exactly one response string (the model is a total function), never
propagates an error to the caller, and that string is non-empty. -/
theorem chain_total_nonempty (env : Env) (net : NetOutcomes) (msg : String)
    (r : Nat) : 0 < (handleChatMessage env net msg r).length := by
  unfold handleChatMessage
  cases h : getAIResponse env net (bookWritingPrompt msg) with
  | ok s => exact str_length_pos_of_ne (getAIResponse_ok_ne_empty h)
  | error e => exact str_length_pos_of_ne (getBookWritingFallback_ne_empty msg r)

/-- C3: if every provider in the chain raises an error, the resolution
invokes the deterministic offline responder `_getBookWritingFallback`, and
the string returned to the caller is a member of that responder's fixed
catalog of templates. -/
theorem chain_exhaustion_uses_fallback (env : Env) (net : NetOutcomes)
    (msg : String) (r : Nat)
    (h1 : ∃ e, callOpenAI env net.openai (bookWritingPrompt msg) = .error e)
    (h2 : ∃ e, callLocalAI net.localAI (bookWritingPrompt msg) = .error e)
    (h3 : ∃ e, callClaudeAPI env net.claude (bookWritingPrompt msg) = .error e) :
    handleChatMessage env net msg r = getBookWritingFallback msg r ∧
      handleChatMessage env net msg r ∈ bookWritingCatalog := by
  obtain ⟨e1, h1⟩ := h1
  obtain ⟨e2, h2⟩ := h2
  obtain ⟨e3, h3⟩ := h3
  have hchain : getAIResponse env net (bookWritingPrompt msg) =
      .error "All AI services unavailable" := by
    unfold getAIResponse
    simp [h1, h2, h3]
  constructor
  · unfold handleChatMessage
    simp [hchain]
  · unfold handleChatMessage
    simp [hchain]
    exact getBookWritingFallback_mem msg r

/-- Witness for C3: with no credentials and no reachable endpoint, the
response to a concrete message is the offline responder's and lies in the
catalog. -/
theorem chain_exhaustion_witness :
    handleChatMessage envNoKeys allDownNet "How do I debug my code?" 0 =
      getBookWritingFallback "How do I debug my code?" 0 ∧
    handleChatMessage envNoKeys allDownNet "How do I debug my code?" 0 ∈
      bookWritingCatalog :=
  chain_exhaustion_uses_fallback envNoKeys allDownNet "How do I debug my code?" 0
    ⟨"OpenAI API key not configured", rfl⟩ ⟨"fetch failed", rfl⟩
    ⟨"Anthropic API key not configured", rfl⟩

/-- C7: both offline responders are total functions of the message and the
injected randomness (so they never throw and perform no I/O) and return a
non-empty string on every input, including empty, whitespace-only and
unicode messages. -/
theorem fallback_total_nonempty (msg : String) (r : Nat) :
    0 < (getSmartFallbackResponse msg r).length ∧
      0 < (getBookWritingFallback msg r).length :=
  ⟨str_length_pos_of_ne (getSmartFallbackResponse_ne_empty msg r),
   str_length_pos_of_ne (getBookWritingFallback_ne_empty msg r)⟩

/-- C8: after every `addToContext` the activity list has at most 10
records, is a suffix of the previous records with the new one appended
(append-only, insertion order kept), and is exactly that appended list
with the oldest records dropped first. -/
theorem activity_log_bounded (acts : List Activity) (a : Activity) :
    (addToContext acts a).length ≤ 10 ∧
      addToContext acts a <:+ acts ++ [a] ∧
      addToContext acts a = (acts ++ [a]).drop (acts.length + 1 - 10) := by
  have hlen : (acts ++ [a]).length = acts.length + 1 := by simp
  unfold addToContext
  dsimp only
  split
  · next h =>
    rw [hlen] at h ⊢
    refine ⟨?_, List.drop_suffix _ _, rfl⟩
    rw [List.length_drop, hlen]
    omega
  · next h =>
    rw [hlen] at h
    have h0 : acts.length + 1 - 10 = 0 := by omega
    refine ⟨?_, List.suffix_refl _, ?_⟩
    · rw [hlen]
      omega
    · rw [h0, List.drop_zero]

theorem strStartsWith_append (needle rest : List Char) :
    strStartsWith (needle ++ rest) needle = true := by
  induction needle with
  | nil => simp [strStartsWith]
  | cons c cs ih => simp [strStartsWith, ih]

theorem hasSubList_nil_needle (hay : List Char) : hasSubList [] hay = true := by
  induction hay with
  | nil => rfl
  | cons c t ih => simp [hasSubList, strStartsWith]

theorem hasSubList_append (needle pre post : List Char) :
    hasSubList needle (pre ++ (needle ++ post)) = true := by
  induction pre with
  | nil =>
    cases needle with
    | nil => simpa using hasSubList_nil_needle post
    | cons c cs =>
      simp [hasSubList]
      exact Or.inl (by simpa using strStartsWith_append (c :: cs) post)
  | cons c t ih => simp [hasSubList, ih]

theorem strStartsWith_map (f : Char → Char) (hay needle : List Char)
    (h : strStartsWith hay needle = true) :
    strStartsWith (hay.map f) (needle.map f) = true := by
  induction needle generalizing hay with
  | nil => simp [strStartsWith]
  | cons d ds ih =>
    cases hay with
    | nil => simp [strStartsWith] at h
    | cons c cs =>
      simp [strStartsWith] at h ⊢
      obtain ⟨h1, h2⟩ := h
      exact ⟨by rw [h1], ih cs h2⟩

theorem hasSubList_map (f : Char → Char) (needle hay : List Char)
    (h : hasSubList needle hay = true) :
    hasSubList (needle.map f) (hay.map f) = true := by
  induction hay with
  | nil =>
    simp [hasSubList] at h ⊢
    simp [h]
  | cons c t ih =>
    simp [hasSubList] at h ⊢
    rcases h with h | h
    · exact Or.inl (strStartsWith_map f (c :: t) needle h)
    · exact Or.inr (ih h)

theorem strIncludes_infix (a m b : String) : strIncludes (a ++ m ++ b) m = true := by
  unfold strIncludes
  rw [String.data_append, String.data_append, List.append_assoc]
  exact hasSubList_append m.data a.data b.data

/-- C9: with the first provider replaced by a stub that echoes its input
prompt, the chain returns the assembled prompt itself, and for every user
message that prompt — from either prompt builder — contains the original
user message as a substring: prompt construction neither corrupts nor
drops the message. -/
theorem prompt_roundtrip (rest : List (String → Except String String))
    (ctx msg : String) :
    resolveChain (echoProvider :: rest) (bookWritingPrompt msg) =
      .ok (bookWritingPrompt msg) ∧
    strIncludes (bookWritingPrompt msg) msg = true ∧
    resolveChain (echoProvider :: rest) (sidebarBookWritingPrompt ctx msg) =
      .ok (sidebarBookWritingPrompt ctx msg) ∧
    strIncludes (sidebarBookWritingPrompt ctx msg) msg = true := by
  refine ⟨rfl, ?_, rfl, ?_⟩
  · unfold bookWritingPrompt
    exact strIncludes_infix bwPre msg bwPost
  · unfold sidebarBookWritingPrompt
    exact strIncludes_infix (sidebarPre ++ ctx ++ "USER QUESTION: ") msg sidebarPost

theorem strIncludes_toLower_of_strIncludes (msg key : String)
    (hfix : key.data.map Char.toLower = key.data)
    (h : strIncludes msg key = true) :
    strIncludes (toLowerStr msg) key = true := by
  unfold strIncludes at h ⊢
  unfold toLowerStr
  have hmap := hasSubList_map Char.toLower key.data msg.data h
  rw [hfix] at hmap
  exact hmap

/-- C6: the offline responder `_getSmartFallbackResponse` lower-cases its
input and tests the fixed keyword sets in the fixed priority order coding,
VS Code, question, greeting, the first match selecting the pool and a
default pool otherwise; in particular, for any injected randomness, a
message containing "debug" selects from the coding pool, the message
"hello" selects from the greeting pool, and a message matching no keyword
set — including the empty message — selects from the default pool. -/
theorem smart_fallback_classification :
    (∀ (msg : String) (r : Nat), strIncludes msg "debug" = true →
      getSmartFallbackResponse msg r ∈ codeResponses) ∧
    (∀ r : Nat, getSmartFallbackResponse "hello" r ∈ greetingResponses) ∧
    (∀ (msg : String) (r : Nat),
      (smartKeywords.all fun k => !strIncludes (toLowerStr msg) k) = true →
      getSmartFallbackResponse msg r ∈ defaultResponses) ∧
    (∀ r : Nat, getSmartFallbackResponse "" r ∈ defaultResponses) := by
  refine ⟨?_, ?_, ?_, ?_⟩
  · intro msg r h
    have hd : strIncludes (toLowerStr msg) "debug" = true :=
      strIncludes_toLower_of_strIncludes msg "debug" (by decide) h
    have heq : getSmartFallbackResponse msg r = randPick r codeResponses := by
      unfold getSmartFallbackResponse
      dsimp only
      rw [hd]
      simp
    rw [heq]
    exact randPick_mem r codeResponses (by simp [codeResponses])
  · intro r
    have heq : getSmartFallbackResponse "hello" r = randPick r greetingResponses := rfl
    rw [heq]
    exact randPick_mem r greetingResponses (by simp [greetingResponses])
  · intro msg r hall
    simp only [smartKeywords, List.all_cons, List.all_nil, Bool.and_true,
      Bool.and_eq_true, Bool.not_eq_true'] at hall
    obtain ⟨k1, k2, k3, k4, k5, k6, k7, k8, k9, k10, k11, k12, k13, k14, k15, k16⟩ := hall
    have heq : getSmartFallbackResponse msg r = randPick r defaultResponses := by
      unfold getSmartFallbackResponse
      dsimp only
      simp [k1, k2, k3, k4, k5, k6, k7, k8, k9, k10, k11, k12, k13, k14, k15, k16]
    rw [heq]
    exact randPick_mem r defaultResponses (by simp [defaultResponses])
  · intro r
    have heq : getSmartFallbackResponse "" r = randPick r defaultResponses := rfl
    rw [heq]
    exact randPick_mem r defaultResponses (by simp [defaultResponses])

/-- Witness for C6: the concrete message "debug" yields a coding-pool
response. -/
theorem smart_fallback_classification_witness :
    getSmartFallbackResponse "debug" 0 ∈ codeResponses :=
  smart_fallback_classification.1 "debug" 0 (by decide)

theorem data_mk (l : List Char) : (String.mk l).data = l := rfl

theorem replaceWsRuns_mem : ∀ (l : List Char) (c : Char),
    c ∈ replaceWsRuns l → c = '-' ∨ (c ∈ l ∧ jsWs c = false)
  | [], c => by simp [replaceWsRuns]
  | [d], c => by
    intro hc
    by_cases h : jsWs d = true
    · simp [replaceWsRuns, h] at hc
      exact Or.inl hc
    · simp [replaceWsRuns, h] at hc
      subst hc
      exact Or.inr ⟨by simp, by simpa using h⟩
  | d :: e :: t, c => by
    intro hc
    simp only [replaceWsRuns] at hc
    by_cases h1 : jsWs d = true
    · by_cases h2 : jsWs e = true
      · rw [if_pos h1, if_pos h2] at hc
        rcases replaceWsRuns_mem (e :: t) c hc with h | ⟨hm, hw⟩
        · exact Or.inl h
        · exact Or.inr ⟨List.mem_cons_of_mem _ hm, hw⟩
      · rw [if_pos h1, if_neg h2] at hc
        rcases List.mem_cons.mp hc with h | h
        · exact Or.inl h
        · rcases replaceWsRuns_mem (e :: t) c h with h | ⟨hm, hw⟩
          · exact Or.inl h
          · exact Or.inr ⟨List.mem_cons_of_mem _ hm, hw⟩
    · rw [if_neg h1] at hc
      rcases List.mem_cons.mp hc with h | h
      · subst h
        exact Or.inr ⟨List.mem_cons_self _ _, by simpa using h1⟩
      · rcases replaceWsRuns_mem (e :: t) c h with h | ⟨hm, hw⟩
        · exact Or.inl h
        · exact Or.inr ⟨List.mem_cons_of_mem _ hm, hw⟩

theorem replaceWsRuns_no_ws (l : List Char) :
    ∀ c ∈ replaceWsRuns l, jsWs c = false := by
  intro c hc
  rcases replaceWsRuns_mem l c hc with h | ⟨_, hw⟩
  · subst h
    decide
  · exact hw

theorem replaceWsRuns_eq_self : ∀ (l : List Char),
    (∀ c ∈ l, jsWs c = false) → replaceWsRuns l = l
  | [], _ => rfl
  | [d], h => by
    have hd := h d (by simp)
    simp [replaceWsRuns, hd]
  | d :: e :: t, h => by
    have hd := h d (by simp)
    simp only [replaceWsRuns, hd]
    rw [if_neg (by simp)]
    rw [replaceWsRuns_eq_self (e :: t) (fun c hc => h c (List.mem_cons_of_mem _ hc))]

theorem collapseHyphens_subset : ∀ (l : List Char) (c : Char),
    c ∈ collapseHyphens l → c ∈ l
  | [], c => by simp [collapseHyphens]
  | [d], c => by simp [collapseHyphens]
  | d :: e :: t, c => by
    intro hc
    simp only [collapseHyphens] at hc
    by_cases h : (d == '-' && e == '-') = true
    · rw [if_pos h] at hc
      exact List.mem_cons_of_mem _ (collapseHyphens_subset (e :: t) c hc)
    · rw [if_neg h] at hc
      rcases List.mem_cons.mp hc with h1 | h1
      · exact h1 ▸ List.mem_cons_self _ _
      · exact List.mem_cons_of_mem _ (collapseHyphens_subset (e :: t) c h1)

theorem collapseHyphens_cons_head : ∀ (d : Char) (t : List Char),
    ∃ t2, collapseHyphens (d :: t) = d :: t2
  | d, [] => ⟨[], rfl⟩
  | d, e :: t => by
    by_cases h : (d == '-' && e == '-') = true
    · obtain ⟨t2, ht⟩ := collapseHyphens_cons_head e t
      obtain ⟨hd, he⟩ := Bool.and_eq_true_iff.mp h
      refine ⟨t2, ?_⟩
      simp only [collapseHyphens, if_pos h]
      rw [ht, eq_of_beq hd, eq_of_beq he]
    · exact ⟨collapseHyphens (e :: t), by simp only [collapseHyphens, if_neg h]⟩

theorem collapseHyphens_noDouble : ∀ (l : List Char),
    noDoubleHyphen (collapseHyphens l) = true
  | [] => rfl
  | [_] => rfl
  | d :: e :: t => by
    by_cases h : (d == '-' && e == '-') = true
    · simp only [collapseHyphens, if_pos h]
      exact collapseHyphens_noDouble (e :: t)
    · simp only [collapseHyphens, if_neg h]
      obtain ⟨t2, ht⟩ := collapseHyphens_cons_head e t
      rw [ht]
      have h2 : noDoubleHyphen (e :: t2) = true :=
        ht ▸ collapseHyphens_noDouble (e :: t)
      have hx : (d == '-' && e == '-') = false := Bool.eq_false_iff.mpr h
      simp only [noDoubleHyphen, Bool.and_eq_true]
      exact ⟨by simp [hx], h2⟩

theorem collapseHyphens_eq_self : ∀ (l : List Char),
    noDoubleHyphen l = true → collapseHyphens l = l
  | [], _ => rfl
  | [_], _ => rfl
  | d :: e :: t, h => by
    simp only [noDoubleHyphen, Bool.and_eq_true, Bool.not_eq_true'] at h
    simp only [collapseHyphens, h.1]
    rw [if_neg (by simp)]
    rw [collapseHyphens_eq_self (e :: t) h.2]

theorem dropWhile_eq_self_of_no {p : Char → Bool} : ∀ (l : List Char),
    (∀ c ∈ l, p c = false) → l.dropWhile p = l
  | [], _ => rfl
  | c :: t, h => by
    have := h c (by simp)
    simp [List.dropWhile_cons, this]

theorem trimEnds_eq_self (l : List Char) (h : ∀ c ∈ l, jsWs c = false) :
    trimEnds l = l := by
  unfold trimEnds
  rw [dropWhile_eq_self_of_no l h,
    dropWhile_eq_self_of_no l.reverse (fun c hc => h c (List.mem_reverse.mp hc)),
    List.reverse_reverse]

theorem map_id_of_fixes {f : Char → Char} : ∀ (l : List Char),
    (∀ c ∈ l, f c = c) → l.map f = l
  | [], _ => rfl
  | c :: t, h => by
    simp only [List.map_cons, h c (by simp),
      map_id_of_fixes t (fun x hx => h x (List.mem_cons_of_mem _ hx))]

theorem toLower_fixes_good (c : Char) (h : goodChar c = true) :
    Char.toLower c = c := by
  have hn : ¬(65 ≤ c.toNat ∧ c.toNat ≤ 90) := by
    simp only [goodChar, Bool.or_eq_true, Bool.and_eq_true, decide_eq_true_eq,
      beq_iff_eq] at h
    rcases h with (⟨h1, h2⟩ | ⟨h1, h2⟩) | h
    · omega
    · omega
    · subst h
      decide
  unfold Char.toLower
  rw [if_neg (by simpa using hn)]

theorem goodChar_not_ws (c : Char) (h : goodChar c = true) : jsWs c = false := by
  simp only [goodChar, Bool.or_eq_true, Bool.and_eq_true, decide_eq_true_eq,
    beq_iff_eq] at h
  have h3 : (97 ≤ c.toNat ∧ c.toNat ≤ 122) ∨ (48 ≤ c.toNat ∧ c.toNat ≤ 57) ∨
      c.toNat = 45 := by
    rcases h with (h | h) | h
    · exact Or.inl h
    · exact Or.inr (Or.inl h)
    · subst h
      exact Or.inr (Or.inr rfl)
  simp only [jsWs, Bool.or_eq_false_iff, beq_eq_false_iff_ne, ne_eq,
    Bool.and_eq_false_iff, decide_eq_false_iff_not, not_le]
  omega

theorem trimEnds_subset (l : List Char) : ∀ c ∈ trimEnds l, c ∈ l := by
  intro c hc
  unfold trimEnds at hc
  rw [List.mem_reverse] at hc
  have h1 := (List.dropWhile_sublist jsWs).subset hc
  rw [List.mem_reverse] at h1
  exact (List.dropWhile_sublist jsWs).subset h1

theorem goodChar_keep (c : Char) (h : goodChar c = true) : keepChar c = true := by
  simp only [goodChar, Bool.or_eq_true] at h
  simp only [keepChar, Bool.or_eq_true]
  rcases h with (h | h) | h
  · exact Or.inl (Or.inl (Or.inl h))
  · exact Or.inl (Or.inl (Or.inr h))
  · exact Or.inr h

theorem sanitizeFilename_good (s : String) :
    ∀ c ∈ (sanitizeFilename s).data, goodChar c = true := by
  intro c hc
  unfold sanitizeFilename at hc
  rw [data_mk] at hc
  have h1 := trimEnds_subset _ c hc
  have h2 := collapseHyphens_subset _ c h1
  rcases replaceWsRuns_mem _ c h2 with h | ⟨hm, hw⟩
  · subst h
    decide
  · have hk : keepChar c = true := List.of_mem_filter hm
    simp only [keepChar, Bool.or_eq_true] at hk
    simp only [goodChar, Bool.or_eq_true]
    rcases hk with ((h | h) | h) | h
    · exact Or.inl (Or.inl h)
    · exact Or.inl (Or.inr h)
    · rw [hw] at h
      exact Bool.noConfusion h
    · exact Or.inr h

theorem sanitizeFilename_noDouble (s : String) :
    noDoubleHyphen (sanitizeFilename s).data = true := by
  unfold sanitizeFilename
  rw [data_mk]
  rw [trimEnds_eq_self _
    (fun c hc => replaceWsRuns_no_ws _ c (collapseHyphens_subset _ c hc))]
  exact collapseHyphens_noDouble _

theorem sanitizeFilename_fixes (w : String)
    (hgood : ∀ c ∈ w.data, goodChar c = true)
    (hnd : noDoubleHyphen w.data = true) :
    sanitizeFilename w = w := by
  have hnws : ∀ c ∈ w.data, jsWs c = false :=
    fun c hc => goodChar_not_ws c (hgood c hc)
  unfold sanitizeFilename
  rw [map_id_of_fixes w.data (fun c hc => toLower_fixes_good c (hgood c hc))]
  rw [List.filter_eq_self.mpr (fun c hc => goodChar_keep c (hgood c hc))]
  rw [replaceWsRuns_eq_self w.data hnws]
  rw [collapseHyphens_eq_self w.data hnd]
  rw [trimEnds_eq_self w.data hnws]

/-- C10: `_sanitizeFilename` returns only lowercase letters, digits and
hyphens (never whitespace, never two adjacent hyphens) and is idempotent;
the result may be empty (the empty input) and may begin or end with a
hyphen (input " a "), because the trim runs only after whitespace has
been replaced by hyphens. -/
theorem sanitizeFilename_spec (s : String) :
    ((sanitizeFilename s).data.all goodChar = true ∧
      (sanitizeFilename s).data.all (fun c => !jsWs c) = true ∧
      noDoubleHyphen (sanitizeFilename s).data = true ∧
      sanitizeFilename (sanitizeFilename s) = sanitizeFilename s) ∧
    sanitizeFilename "" = "" ∧ sanitizeFilename " a " = "-a-" := by
  refine ⟨⟨?_, ?_, sanitizeFilename_noDouble s, ?_⟩, by decide, by decide⟩
  · rw [List.all_eq_true]
    exact fun c hc => sanitizeFilename_good s c hc
  · rw [List.all_eq_true]
    intro c hc
    rw [Bool.not_eq_true']
    exact goodChar_not_ws c (sanitizeFilename_good s c hc)
  · exact sanitizeFilename_fixes _ (sanitizeFilename_good s) (sanitizeFilename_noDouble s)

end AuthorByAI
